import Mathlib

/-!
Verification of the setup-ssh-runner tool (SSH server bring-up plus tunnel
orchestration) against its natural-language specification.

The JavaScript sources are shallowly embedded as executable Lean functions:
  * `lib/errors.js`      → `SetupError`
  * `lib/setup-ssh.js`   → `writeAuthorizedKeys`, `selectMode`
  * `lib/utils.js`       → `retryAux` / `retryWithBackoff`
  * `lib/tunnels/base.js`→ `probeFrom` / `probeLoop` / `parseEndpointFromLog`
  * `lib/tunnels/pinggy.js`, `tunnels/cloudflare.js`, `tunnels/sshj.js`
                         → start / `getConnectCommand` models
  * `bin` entry `run`    → `startOne` / `runTunnels` / `runTrace`

String-valued JavaScript operations (`String.prototype.trim`,
`String.prototype.split`, the concrete regular expressions) are modelled by
explicit character-list functions defined below, so every definition is
executable and decidable on concrete inputs.
-/

namespace SetupSsh

/-- Structured error classes from `lib/errors.js`.  Each JavaScript class
carries a message; `TunnelError` additionally carries the tunnel type. -/
inductive SetupError where
  | configError (msg : String)
  | downloadError (msg : String)
  | tunnelError (tunnelType : String) (msg : String)
  | sshdError (msg : String)
  | permissionError (msg : String)
  | networkError (msg : String)
  | timeoutError (msg : String)
deriving Repr, DecidableEq

deriving instance DecidableEq for Except

/-- JavaScript whitespace test for the characters relevant here
(`String.prototype.trim` strips these). -/
def isWs (c : Char) : Bool := c.isWhitespace

/-- Character-level model of `String.prototype.startsWith`. -/
def jsStartsWith (s pre : String) : Bool := pre.data.isPrefixOf s.data

/-- Character-level model of `String.prototype.trim`: drop whitespace from
both ends. -/
def trimChars (cs : List Char) : List Char :=
  ((cs.dropWhile isWs).reverse.dropWhile isWs).reverse

/-- `String.prototype.trim` on a Lean string. -/
def jsTrim (s : String) : String := ⟨trimChars s.data⟩

/-- Character-level model of `String.prototype.split('\n')`. -/
def splitLinesChars : List Char → List (List Char)
  | [] => [[]]
  | c :: cs =>
    if c = '\n' then [] :: splitLinesChars cs
    else
      match splitLinesChars cs with
      | [] => [[c]]
      | p :: ps => (c :: p) :: ps

/-- `s.split('\n')` on a Lean string. -/
def jsSplitNL (s : String) : List String :=
  (splitLinesChars s.data).map fun cs => ⟨cs⟩

/-- The key-parsing pipeline of `SetupSSH.writeAuthorizedKeys`
(`lib/setup-ssh.js` lines 44–48): split on newlines, trim each line, keep
non-empty lines not starting with `#`, then keep lines starting with `ssh-`. -/
def validKeys (pubkey : String) : List String :=
  (((jsSplitNL pubkey).map jsTrim).filter
      (fun k => !(k == "") && !(jsStartsWith k "#"))).filter
    (fun k => jsStartsWith k "ssh-")

/-- `SetupSSH.writeAuthorizedKeys` (`lib/setup-ssh.js` lines 34–73), modelled
as a function from the public-key blob and the timestamp string to either the
thrown error or the list of lines written to `authorized_keys`.  The
filesystem side effects (directory creation, permissions) are out of model;
the returned list is exactly the lines of the written file content
(`keys.map(k => k + ' # Added by setup-ssh at ' + timestamp)`). -/
def writeAuthorizedKeys (pubkey timestamp : String) :
    Except SetupError (List String) :=
  if jsTrim pubkey = "" then
    Except.error (SetupError.sshdError "PIPELINE_SSH_PUBKEY is required")
  else
    let keys := validKeys pubkey
    if keys = [] then
      Except.error (SetupError.sshdError "No valid SSH keys found in PIPELINE_SSH_PUBKEY")
    else
      Except.ok (keys.map fun k => k ++ " # Added by setup-ssh at " ++ timestamp)

/-- The three SSH bring-up modes of `SetupSSH.setup`. -/
inductive SshMode where
  | user
  | root
  | windows
deriving Repr, DecidableEq

/-- The mode-selection branch of `SetupSSH.setup` (`lib/setup-ssh.js` lines
304–315): `utils.isWindows` tests `os.platform() === 'win32'`,
`utils.isLinux` tests `os.platform() === 'linux'`; any other platform throws
`SSHDError('Unsupported platform: ...')`. -/
def selectMode (platform sshMode : String) : Except SetupError SshMode :=
  if platform = "win32" then Except.ok SshMode.windows
  else if platform = "linux" then
    if sshMode = "root" then Except.ok SshMode.root
    else Except.ok SshMode.user
  else Except.error (SetupError.sshdError ("Unsupported platform: " ++ platform))

/- ## Lemmas about trimming and line splitting (support for C1) -/

lemma trimChars_eq_nil_iff (cs : List Char) :
    trimChars cs = [] ↔ ∀ c ∈ cs, isWs c := by
  unfold trimChars
  constructor
  · intro h c hc
    rw [List.reverse_eq_nil_iff, List.dropWhile_eq_nil_iff] at h
    have hc2 : c ∈ cs.takeWhile isWs ++ cs.dropWhile isWs := by
      rw [List.takeWhile_append_dropWhile]
      exact hc
    rcases List.mem_append.mp hc2 with h1 | h2
    · exact List.mem_takeWhile_imp h1
    · exact h c (by simpa using h2)
  · intro h
    have h1 : cs.dropWhile isWs = [] :=
      List.dropWhile_eq_nil_iff.mpr fun x hx => h x hx
    simp [h1]

lemma mem_splitLinesChars_subset {piece : List Char} {cs : List Char}
    (hp : piece ∈ splitLinesChars cs) {c : Char} (hc : c ∈ piece) : c ∈ cs := by
  induction cs generalizing piece with
  | nil =>
    simp [splitLinesChars] at hp
    subst hp
    simp at hc
  | cons c0 cs ih =>
    by_cases h0 : c0 = '\n'
    · rw [splitLinesChars, if_pos h0] at hp
      rcases List.mem_cons.mp hp with h1 | h1
      · subst h1; simp at hc
      · exact List.mem_cons_of_mem _ (ih h1 hc)
    · rw [splitLinesChars, if_neg h0] at hp
      rcases hsplit : splitLinesChars cs with _ | ⟨p, ps⟩
      · rw [hsplit] at hp
        simp at hp
        subst hp
        simp at hc
        simp [hc]
      · rw [hsplit] at hp
        have hmem : ∀ q ∈ p :: ps, q ∈ splitLinesChars cs := by
          intro q hq
          rw [hsplit]
          exact hq
        rcases List.mem_cons.mp hp with h1 | h1
        · subst h1
          rcases List.mem_cons.mp hc with h2 | h2
          · simp [h2]
          · exact List.mem_cons_of_mem _
              (ih (hmem p (List.mem_cons_self p ps)) h2)
        · exact List.mem_cons_of_mem _
            (ih (hmem piece (List.mem_cons_of_mem p h1)) hc)

lemma validKeys_eq_nil_of_trim_eq_nil {pubkey : String}
    (h : jsTrim pubkey = "") : validKeys pubkey = [] := by
  have hall : ∀ c ∈ pubkey.data, isWs c := by
    have : trimChars pubkey.data = [] := by
      have := congrArg String.data h
      simpa [jsTrim] using this
    exact (trimChars_eq_nil_iff pubkey.data).mp this
  have hfirst :
      (((jsSplitNL pubkey).map jsTrim).filter
        (fun k => !(k == "") && !(jsStartsWith k "#"))) = [] := by
    apply List.filter_eq_nil_iff.mpr
    intro k hk
    rcases List.mem_map.mp hk with ⟨line, hline, hkeq⟩
    rcases List.mem_map.mp hline with ⟨piece, hpiece, hleq⟩
    have hpw : ∀ c ∈ piece, isWs c := fun c hc =>
      hall c (mem_splitLinesChars_subset hpiece hc)
    have : trimChars piece = [] := (trimChars_eq_nil_iff piece).mpr hpw
    have hkempty : k = "" := by
      subst hkeq hleq
      simp [jsTrim, this]
    subst hkempty
    simp
  unfold validKeys
  rw [hfirst]
  rfl

lemma jsTrim_ne_empty_of_validKeys_ne_nil {pubkey : String}
    (h : validKeys pubkey ≠ []) : jsTrim pubkey ≠ "" := by
  intro hempty
  exact h (validKeys_eq_nil_of_trim_eq_nil hempty)

/- ## C1: writeAuthorizedKeys -/

/-- C1, counterexample to the claim as stated.  The claim asserts (a) that the
written file contains exactly the kept key lines and (b) that a blob with
zero key lines fails with a `ConfigurationError`.  On the code: a zero-key
blob fails with `SSHDError` (not `ConfigError`), and each written line is the
key followed by a timestamp audit comment, so the file does not consist
exactly of the key lines. -/
theorem C1_writeAuthorizedKeys_counterexample :
    writeAuthorizedKeys "hello" "T" =
        Except.error (SetupError.sshdError "No valid SSH keys found in PIPELINE_SSH_PUBKEY")
    ∧ (∀ msg, writeAuthorizedKeys "hello" "T" ≠
        Except.error (SetupError.configError msg))
    ∧ writeAuthorizedKeys "ssh-ed25519 KEY user" "T" =
        Except.ok ["ssh-ed25519 KEY user # Added by setup-ssh at T"]
    ∧ writeAuthorizedKeys "ssh-ed25519 KEY user" "T" ≠
        Except.ok ["ssh-ed25519 KEY user"] := by
  refine ⟨by decide, ?_, by decide, by decide⟩
  intro msg h
  rw [show writeAuthorizedKeys "hello" "T" =
      Except.error (SetupError.sshdError "No valid SSH keys found in PIPELINE_SSH_PUBKEY")
    from by decide] at h
  simp at h

/-- C1, amended: for every blob in which, after trimming lines and dropping
blank lines and `#`-comment lines, at least one line starts with `ssh-`,
`writeAuthorizedKeys` succeeds and the written file consists of exactly those
key lines, each annotated with a trailing timestamp comment; for every blob
with zero such lines it fails with an `SSHDError` (the code's fatal error
class for SSH setup, not `ConfigError`). -/
theorem C1_writeAuthorizedKeys_amended (pubkey timestamp : String) :
    (validKeys pubkey ≠ [] →
      writeAuthorizedKeys pubkey timestamp =
        Except.ok ((validKeys pubkey).map
          fun k => k ++ " # Added by setup-ssh at " ++ timestamp))
    ∧ (validKeys pubkey = [] →
      ∃ msg, writeAuthorizedKeys pubkey timestamp =
        Except.error (SetupError.sshdError msg)) := by
  constructor
  · intro h
    have htrim := jsTrim_ne_empty_of_validKeys_ne_nil h
    rw [writeAuthorizedKeys, if_neg htrim]
    simp [h]
  · intro h
    by_cases htrim : jsTrim pubkey = ""
    · exact ⟨"PIPELINE_SSH_PUBKEY is required", by rw [writeAuthorizedKeys, if_pos htrim]⟩
    · exact ⟨"No valid SSH keys found in PIPELINE_SSH_PUBKEY", by
        rw [writeAuthorizedKeys, if_neg htrim]
        simp only
        rw [if_pos h]⟩

/-- C1 witness: concrete evaluation of the amended theorem on a blob holding
one key, one comment and one blank line. -/
theorem C1_writeAuthorizedKeys_witness :
    validKeys "# header\n\nssh-rsa AAAB me\n" ≠ [] ∧
    writeAuthorizedKeys "# header\n\nssh-rsa AAAB me\n" "2024-01-28" =
      Except.ok ((validKeys "# header\n\nssh-rsa AAAB me\n").map
        fun k => k ++ " # Added by setup-ssh at " ++ "2024-01-28") :=
  ⟨by decide,
   (C1_writeAuthorizedKeys_amended "# header\n\nssh-rsa AAAB me\n" "2024-01-28").1
     (by decide)⟩

/- ## C2: SSH mode selection -/

/-- C2: mode selection in `SetupSSH.setup` is a deterministic pure function of
`(platform, configuredMode)`: `win32` selects Windows mode; `linux` with
configured mode `"root"` selects root mode; `linux` with any other configured
mode selects user mode; any other platform throws the fatal
unsupported-platform error. -/
theorem C2_selectMode (platform sshMode : String) :
    (platform = "win32" → selectMode platform sshMode = Except.ok SshMode.windows)
    ∧ (platform = "linux" → sshMode = "root" →
        selectMode platform sshMode = Except.ok SshMode.root)
    ∧ (platform = "linux" → sshMode ≠ "root" →
        selectMode platform sshMode = Except.ok SshMode.user)
    ∧ (platform ≠ "win32" → platform ≠ "linux" →
        selectMode platform sshMode =
          Except.error (SetupError.sshdError ("Unsupported platform: " ++ platform))) := by
  refine ⟨?_, ?_, ?_, ?_⟩
  · intro h
    rw [selectMode, if_pos h]
  · intro h1 h2
    rw [selectMode, if_neg (by simp [h1]), if_pos h1, if_pos h2]
  · intro h1 h2
    rw [selectMode, if_neg (by simp [h1]), if_pos h1, if_neg h2]
  · intro h1 h2
    rw [selectMode, if_neg h1, if_neg h2]

/-- C2 witness: concrete evaluations for all four branches. -/
theorem C2_selectMode_witness :
    selectMode "win32" "auto" = Except.ok SshMode.windows
    ∧ selectMode "linux" "root" = Except.ok SshMode.root
    ∧ selectMode "linux" "auto" = Except.ok SshMode.user
    ∧ selectMode "darwin" "auto" =
        Except.error (SetupError.sshdError ("Unsupported platform: " ++ "darwin")) :=
  ⟨(C2_selectMode "win32" "auto").1 rfl,
   (C2_selectMode "linux" "root").2.1 rfl rfl,
   (C2_selectMode "linux" "auto").2.2.1 rfl (by decide),
   (C2_selectMode "darwin" "auto").2.2.2 (by decide) (by decide)⟩

/- ## Log-endpoint probe (`lib/tunnels/base.js`) -/

/-- The polling loop of `BaseTunnel.parseEndpointFromLog` (`lib/tunnels/base.js`
lines 112–129).  Time is discretised into poll cycles (the code sleeps 250 ms
between cycles and loops while the elapsed time is below `timeoutMs`, so the
timeout determines the number of cycles).  `content i` is the full log-file
content at cycle `i` (`none` when the file does not exist yet);
`matcher` is the plugin's regular expression, returning the first matched
substring of the full content (`match[0]`).  Each cycle re-reads the full
content and tests it; a match is returned immediately, otherwise the loop
continues and yields `none` once the cycles are exhausted. -/
def probeFrom (content : Nat → Option String) (matcher : String → Option String) :
    Nat → Nat → Option String
  | _, 0 => none
  | i, fuel + 1 =>
    match content i with
    | some s =>
      match matcher s with
      | some m => some m
      | none => probeFrom content matcher (i + 1) fuel
    | none => probeFrom content matcher (i + 1) fuel

/-- `parseEndpointFromLog`'s loop started at cycle 0 with `cycles` poll
cycles available before the timeout. -/
def probeLoop (content : Nat → Option String) (matcher : String → Option String)
    (cycles : Nat) : Option String :=
  probeFrom content matcher 0 cycles

/-- `BaseTunnel.parseEndpointFromLog` (`lib/tunnels/base.js` lines 107–132):
throws `TunnelError(name, 'No log file configured')` when `this.logFile` is
null, otherwise runs the polling loop and returns its result (the first
match, or null on timeout). -/
def parseEndpointFromLog (name : String) (logFile : Option (Nat → Option String))
    (matcher : String → Option String) (cycles : Nat) :
    Except SetupError (Option String) :=
  match logFile with
  | none => Except.error (SetupError.tunnelError name "No log file configured")
  | some content => Except.ok (probeLoop content matcher cycles)

/- ## Concrete endpoint matchers -/

/-- Scanner for the Pinggy pattern `tcp:\/\/[^\s]+` over a character list:
at each position, match the literal `tcp://` followed by at least one
non-whitespace character, returning the leftmost match (what
`content.match(pattern)[0]` yields).  Greedy `[^\s]+` takes the maximal
non-whitespace run. -/
def tcpMatchAux : List Char → Option (List Char)
  | [] => none
  | c :: cs =>
    if ("tcp://".data).isPrefixOf (c :: cs) then
      let body := ((c :: cs).drop 6).takeWhile fun ch => !isWs ch
      if body.isEmpty then tcpMatchAux cs
      else some ("tcp://".data ++ body)
    else tcpMatchAux cs

/-- First match of `/tcp:\/\/[^\s]+/` in a string (`pinggy.js` line 77). -/
def firstMatchTcp (s : String) : Option String :=
  (tcpMatchAux s.data).map fun cs => ⟨cs⟩

/-- Case-insensitive character comparison (for regex flag `i`). -/
def charIEq (a b : Char) : Bool := a.toLower == b.toLower

/-- Case-insensitive list prefix test. -/
def isPrefixOfCI : List Char → List Char → Bool
  | [], _ => true
  | _ :: _, [] => false
  | a :: as, b :: bs => charIEq a b && isPrefixOfCI as bs

/-- Character class `[a-f0-9-]` under the case-insensitive flag. -/
def isCfIdChar (c : Char) : Bool :=
  (('a' ≤ c && c ≤ 'f') || ('A' ≤ c && c ≤ 'F') || c.isDigit || c == '-')

/-- Scanner for the Cloudflare pattern
`/https:\/\/[a-f0-9-]+\.cfargotunnel\.com/i` (`cloudflare.js` line 136):
at each position, match `https://` case-insensitively, then at least one
`[a-f0-9-]` character (greedy), then the literal `.cfargotunnel.com`
case-insensitively; the match is the original text. -/
def cfMatchAux : List Char → Option (List Char)
  | [] => none
  | c :: cs =>
    if isPrefixOfCI ("https://".data) (c :: cs) then
      let afterScheme := (c :: cs).drop 8
      let idPart := afterScheme.takeWhile isCfIdChar
      if !idPart.isEmpty &&
          isPrefixOfCI (".cfargotunnel.com".data) (afterScheme.drop idPart.length) then
        some ((c :: cs).take (8 + idPart.length + 17))
      else cfMatchAux cs
    else cfMatchAux cs

/-- First match of the Cloudflare endpoint pattern in a string. -/
def cfFirstMatch (s : String) : Option String :=
  (cfMatchAux s.data).map fun cs => ⟨cs⟩

/- ## Background tunnel start (`pinggy.js`, `cloudflare.js`) -/

/-- The result record of a tunnel `start` call, projected onto the fields the
spec claims concern (`started`, `foreground`, `pid`, `endpoint`) plus
whether the endpoint-missing warning was logged; plugin-specific string
fields (log-file path, Cloudflare tunnel id) are omitted. -/
structure TunnelStartResult where
  started : Bool
  foreground : Bool
  pid : Option Nat
  endpoint : Option String
  warned : Bool
deriving Repr, DecidableEq

/-- Background branch of `PinggyTunnel.start` (`lib/tunnels/pinggy.js` lines
74–90): after spawning detached (pid known, log file configured), the
endpoint is probed from the log with the Pinggy pattern; a missing endpoint
produces a warning, and the returned record always has `started: true`. -/
def pinggyStartBackground (pid : Nat) (logContent : Nat → Option String)
    (cycles : Nat) : Except SetupError TunnelStartResult :=
  match parseEndpointFromLog "Pinggy" (some logContent) firstMatchTcp cycles with
  | Except.error e => Except.error e
  | Except.ok ep =>
      Except.ok { started := true, foreground := false, pid := some pid,
                  endpoint := ep, warned := ep.isNone }

/-- Background branch of `CloudflareTunnel.start` (`src/unnamed/part_003`
lines 128–163): same shape with the Cloudflare pattern and timeout. -/
def cloudflareStartBackground (pid : Nat) (logContent : Nat → Option String)
    (cycles : Nat) : Except SetupError TunnelStartResult :=
  match parseEndpointFromLog "Cloudflare" (some logContent) cfFirstMatch cycles with
  | Except.error e => Except.error e
  | Except.ok ep =>
      Except.ok { started := true, foreground := false, pid := some pid,
                  endpoint := ep, warned := ep.isNone }

/- ## Probe lemmas (support for C5/C6) -/

lemma probeFrom_eq_none {content : Nat → Option String}
    {matcher : String → Option String} :
    ∀ (fuel a : Nat),
      (∀ i, a ≤ i → i < a + fuel → (content i).bind matcher = none) →
      probeFrom content matcher a fuel = none := by
  intro fuel
  induction fuel with
  | zero => intro a _; rfl
  | succ n ih =>
    intro a h
    have ha : (content a).bind matcher = none :=
      h a (Nat.le_refl a) (Nat.lt_add_of_pos_right (Nat.succ_pos n))
    rw [probeFrom]
    rcases hca : content a with _ | s
    · simp only [hca]
      exact ih (a + 1) fun i h1 h2 =>
        h i (Nat.le_of_succ_le h1) (by omega)
    · simp only [hca]
      rcases hms : matcher s with _ | m
      · simp only [hms]
        exact ih (a + 1) fun i h1 h2 =>
          h i (Nat.le_of_succ_le h1) (by omega)
      · rw [hca] at ha
        simp [hms] at ha

lemma probeFrom_first {content : Nat → Option String}
    {matcher : String → Option String} :
    ∀ (fuel a j : Nat) (m : String),
      a ≤ j → j < a + fuel →
      (content j).bind matcher = some m →
      (∀ i, a ≤ i → i < j → (content i).bind matcher = none) →
      probeFrom content matcher a fuel = some m := by
  intro fuel
  induction fuel with
  | zero => intro a j m h1 h2 _ _; omega
  | succ n ih =>
    intro a j m haj hjf hj hbefore
    rw [probeFrom]
    by_cases hja : j = a
    · subst hja
      rcases hca : content j with _ | s
      · rw [hca] at hj; simp at hj
      · rw [hca] at hj
        simp at hj
        simp only [hca]
        simp [hj]
    · have ha : (content a).bind matcher = none :=
        hbefore a (Nat.le_refl a) (by omega)
      rcases hca : content a with _ | s
      · simp only [hca]
        exact ih (a + 1) j m (by omega) (by omega) hj fun i h1 h2 =>
          hbefore i (by omega) h2
      · simp only [hca]
        rcases hms : matcher s with _ | mm
        · simp only [hms]
          exact ih (a + 1) j m (by omega) (by omega) hj fun i h1 h2 =>
            hbefore i (by omega) h2
        · rw [hca] at ha
          simp [hms] at ha

/- ## C6: log probe semantics -/

/-- C6: for every content evolution, matcher and timeout, the log probe
re-reads the full content each cycle (a missing file — `content i = none` —
is tolerated and just skipped); `parseEndpointFromLog` on a configured log
runs the loop; the loop returns the first matched substring if some cycle
before the timeout matches, and `none` after the timeout when no cycle ever
matches. -/
theorem C6_logProbe (content : Nat → Option String)
    (matcher : String → Option String) (name : String) (cycles : Nat) :
    (parseEndpointFromLog name (some content) matcher cycles =
      Except.ok (probeLoop content matcher cycles))
    ∧ ((∀ i, i < cycles → (content i).bind matcher = none) →
        probeLoop content matcher cycles = none)
    ∧ (∀ j m, j < cycles → (content j).bind matcher = some m →
        (∀ i, i < j → (content i).bind matcher = none) →
        probeLoop content matcher cycles = some m) := by
  refine ⟨rfl, ?_, ?_⟩
  · intro h
    exact probeFrom_eq_none cycles 0 fun i h1 h2 => h i (by omega)
  · intro j m hj hmatch hbefore
    exact probeFrom_first cycles 0 j m (Nat.zero_le j) (by omega) hmatch
      fun i h1 h2 => hbefore i h2

/-- C6 witness: a log that does not exist for two cycles and then holds a
Pinggy endpoint is matched; a log that never matches yields `none`. -/
theorem C6_logProbe_witness :
    probeLoop
        (fun i => if i < 2 then none else some "ok tcp://a.pinggy.link:4431 x")
        firstMatchTcp 5 = some "tcp://a.pinggy.link:4431"
    ∧ probeLoop (fun _ => some "no endpoint here") firstMatchTcp 3 = none :=
  ⟨(C6_logProbe (fun i => if i < 2 then none else some "ok tcp://a.pinggy.link:4431 x")
      firstMatchTcp "Pinggy" 5).2.2 2 "tcp://a.pinggy.link:4431"
      (by decide) (by decide) (by decide),
   (C6_logProbe (fun _ => some "no endpoint here") firstMatchTcp "Pinggy" 3).2.1
      (by decide)⟩

/- ## C10: probe without a configured log file -/

/-- C10: calling `parseEndpointFromLog` while no log file is configured
(`this.logFile` null) throws `TunnelError(name, 'No log file configured')`
instead of returning null — the edge the spec's "first match or null"
wording does not mention. -/
theorem C10_noLogFile (name : String) (matcher : String → Option String)
    (cycles : Nat) :
    parseEndpointFromLog name none matcher cycles =
      Except.error (SetupError.tunnelError name "No log file configured") := rfl

/- ## C5: endpoint-discovery timeout is not fatal -/

/-- C5: for every background start (Pinggy or Cloudflare) whose
endpoint-discovery pattern never matches the log within the timeout, `start`
still returns a successful outcome (`started: true`) with a null endpoint and
the warning logged; the timeout is not an error. -/
theorem C5_timeoutNonFatal (pid : Nat) (logContent : Nat → Option String)
    (cycles : Nat) :
    ((∀ i, i < cycles → (logContent i).bind firstMatchTcp = none) →
      pinggyStartBackground pid logContent cycles =
        Except.ok { started := true, foreground := false, pid := some pid,
                    endpoint := none, warned := true })
    ∧ ((∀ i, i < cycles → (logContent i).bind cfFirstMatch = none) →
      cloudflareStartBackground pid logContent cycles =
        Except.ok { started := true, foreground := false, pid := some pid,
                    endpoint := none, warned := true }) := by
  constructor
  · intro h
    have hp : probeLoop logContent firstMatchTcp cycles = none :=
      (C6_logProbe logContent firstMatchTcp "Pinggy" cycles).2.1 h
    rw [pinggyStartBackground, parseEndpointFromLog, hp]
    rfl
  · intro h
    have hp : probeLoop logContent cfFirstMatch cycles = none :=
      (C6_logProbe logContent cfFirstMatch "Cloudflare" cycles).2.1 h
    rw [cloudflareStartBackground, parseEndpointFromLog, hp]
    rfl

/-- C5 witness: a concrete background start against a log that never gains an
endpoint returns a successful outcome with a null endpoint. -/
theorem C5_timeoutNonFatal_witness :
    pinggyStartBackground 41 (fun _ => some "ssh: connecting...") 4 =
      Except.ok { started := true, foreground := false, pid := some 41,
                  endpoint := none, warned := true }
    ∧ cloudflareStartBackground 42 (fun _ => none) 4 =
      Except.ok { started := true, foreground := false, pid := some 42,
                  endpoint := none, warned := true } :=
  ⟨(C5_timeoutNonFatal 41 (fun _ => some "ssh: connecting...") 4).1 (by decide),
   (C5_timeoutNonFatal 42 (fun _ => none) 4).2 (by decide)⟩

/- ## getConnectCommand (`pinggy.js`, `sshj.js`) -/

/-- Scanner for `/tcp:\/\/([^:]+):(\d+)/` (`pinggy.js` line 96): at each
position match the literal `tcp://`, a non-empty run of non-`:` characters
(the host), a `:` and a non-empty digit run (the port); `[^:]+` is greedy and
cannot cross the `:`, so each start position admits exactly one candidate
split. -/
def tcpHostPortAux : List Char → Option (List Char × List Char)
  | [] => none
  | c :: cs =>
    if ("tcp://".data).isPrefixOf (c :: cs) then
      let rest := (c :: cs).drop 6
      let host := rest.takeWhile fun ch => ch ≠ ':'
      match rest.drop host.length with
      | ':' :: r3 =>
        let digits := r3.takeWhile Char.isDigit
        if host.isEmpty || digits.isEmpty then tcpHostPortAux cs
        else some (host, digits)
      | _ => tcpHostPortAux cs
    else tcpHostPortAux cs

/-- Capture groups of the first `/tcp:\/\/([^:]+):(\d+)/` match in a string. -/
def tcpHostPort (s : String) : Option (String × String) :=
  (tcpHostPortAux s.data).map fun hp => (⟨hp.1⟩, ⟨hp.2⟩)

/-- `PinggyTunnel.getConnectCommand` (`lib/tunnels/pinggy.js` lines 92–103):
null when no endpoint is known; otherwise parse host and port from the
endpoint and derive the command (null again if the endpoint does not parse).
`currentUser` is `os.userInfo().username`, fixed for the invocation. -/
def pinggyGetConnectCommand (endpoint : Option String) (currentUser : String) :
    Option String :=
  match endpoint with
  | none => none
  | some ep =>
    match tcpHostPort ep with
    | none => none
    | some (host, port) =>
        some ("ssh -p " ++ port ++ " " ++ currentUser ++ "@" ++ host ++
          " -i <your-private-key>")

/-- The state of a `SshjTunnel` instance relevant to `getConnectCommand`
(`src/unnamed/part_004` lines 115–125): the inherited `endpoint` field (which
SSH-J never assigns, so it stays null) and the configuration values
`config.tunnels.sshj.{namespace, device, host}`.  `namespace` and `device`
default to null when their environment variables are unset (`config.js`), and
`namespace` is renamed `nspace` because it is a Lean keyword. -/
structure SshjState where
  endpoint : Option String
  nspace : Option String
  device : Option String
  host : String
deriving Repr, DecidableEq

/-- `SshjTunnel.getConnectCommand`: reads only the configured namespace,
device and host (never `this.endpoint`); null when namespace or device is
missing, else the derived jump command. -/
def sshjGetConnectCommand (st : SshjState) (currentUser : String) :
    Option String :=
  match st.nspace, st.device with
  | some ns, some dv =>
      some ("ssh -J " ++ ns ++ "@" ++ st.host ++ " " ++ currentUser ++ "@" ++ dv)
  | _, _ => none

/- ## C9: getConnectCommand -/

/-- C9, counterexample to the claim as stated.  The claim's first clause says
every plugin state with no known endpoint yields no connect command; but an
`SshjTunnel` never learns an endpoint (its `endpoint` field stays null) yet
returns a command whenever namespace and device are configured. -/
theorem C9_getConnectCommand_counterexample :
    ({ endpoint := none, nspace := some "myns", device := some "mydev",
       host := "ssh-j.com" } : SshjState).endpoint = none
    ∧ sshjGetConnectCommand
        { endpoint := none, nspace := some "myns", device := some "mydev",
          host := "ssh-j.com" } "runner"
        = some "ssh -J myns@ssh-j.com runner@mydev"
    ∧ sshjGetConnectCommand
        { endpoint := none, nspace := some "myns", device := some "mydev",
          host := "ssh-j.com" } "runner" ≠ none := by
  refine ⟨rfl, by decide, by decide⟩

/-- C9, amended: for Pinggy (whose command derives from the discovered
endpoint), no known endpoint yields null and a known endpoint yields a pure
derivation from endpoint and user (null when the endpoint fails to parse);
for SSH-J the relevant identifiers are the configured namespace and device —
when either is missing the command is null, otherwise it is a pure derivation
from (namespace, device, host, user), independent of any endpoint. -/
theorem C9_getConnectCommand_amended (endpoint : Option String)
    (user : String) (st : SshjState) :
    (endpoint = none → pinggyGetConnectCommand endpoint user = none)
    ∧ (∀ ep, endpoint = some ep →
        pinggyGetConnectCommand endpoint user =
          (tcpHostPort ep).map fun hp =>
            "ssh -p " ++ hp.2 ++ " " ++ user ++ "@" ++ hp.1 ++
              " -i <your-private-key>")
    ∧ ((st.nspace = none ∨ st.device = none) →
        sshjGetConnectCommand st user = none)
    ∧ (∀ ns dv, st.nspace = some ns → st.device = some dv →
        sshjGetConnectCommand st user =
          some ("ssh -J " ++ ns ++ "@" ++ st.host ++ " " ++ user ++ "@" ++ dv)) := by
  refine ⟨?_, ?_, ?_, ?_⟩
  · intro h
    subst h
    rfl
  · intro ep h
    subst h
    rcases htp : tcpHostPort ep with _ | ⟨host, port⟩
    · simp [pinggyGetConnectCommand, htp]
    · simp [pinggyGetConnectCommand, htp]
  · intro h
    rcases hns : st.nspace with _ | ns
    · simp [sshjGetConnectCommand, hns]
    · rcases hdv : st.device with _ | dv
      · simp [sshjGetConnectCommand, hns, hdv]
      · rcases h with h | h
        · rw [hns] at h; cases h
        · rw [hdv] at h; cases h
  · intro ns dv h1 h2
    simp [sshjGetConnectCommand, h1, h2]

/-- C9 witness: concrete evaluations of all four amended branches. -/
theorem C9_getConnectCommand_witness :
    pinggyGetConnectCommand none "runner" = none
    ∧ pinggyGetConnectCommand (some "tcp://h.pinggy.link:443") "runner" =
        (tcpHostPort "tcp://h.pinggy.link:443").map (fun hp =>
          "ssh -p " ++ hp.2 ++ " " ++ "runner" ++ "@" ++ hp.1 ++
            " -i <your-private-key>")
    ∧ sshjGetConnectCommand
        { endpoint := none, nspace := none, device := some "d", host := "ssh-j.com" }
        "runner" = none
    ∧ sshjGetConnectCommand
        { endpoint := none, nspace := some "n", device := some "d", host := "ssh-j.com" }
        "runner" = some ("ssh -J " ++ "n" ++ "@" ++ "ssh-j.com" ++ " " ++ "runner" ++ "@" ++ "d") :=
  ⟨(C9_getConnectCommand_amended none "runner"
      { endpoint := none, nspace := none, device := none, host := "" }).1 rfl,
   (C9_getConnectCommand_amended (some "tcp://h.pinggy.link:443") "runner"
      { endpoint := none, nspace := none, device := none, host := "" }).2.1
      "tcp://h.pinggy.link:443" rfl,
   (C9_getConnectCommand_amended none "runner"
      { endpoint := none, nspace := none, device := some "d", host := "ssh-j.com" }).2.2.1
      (Or.inl rfl),
   (C9_getConnectCommand_amended none "runner"
      { endpoint := none, nspace := some "n", device := some "d", host := "ssh-j.com" }).2.2.2
      "n" "d" rfl rfl⟩

/- ## Tunnel orchestration (`run`, `src/unnamed/part_001` lines 610–647) -/

/-- The result value the mapped async function builds per plugin in `run`:
on an available plugin's successful `start`, a success record; on a caught
error, a failure record with only `tunnelType`, `success` and `error` set;
on an unavailable plugin, JavaScript `null` — modelled by `Option` at the
`Settled` layer. -/
structure TunnelOutcomeJs where
  tunnelType : String
  success : Bool
  endpoint : Option String := none
  connectCommand : Option String := none
  pid : Option Nat := none
  error : Option String := none
deriving Repr, DecidableEq

/-- A settled JavaScript promise, as produced by `Promise.allSettled`:
`{status: 'fulfilled', value}` or `{status: 'rejected', reason}`. -/
inductive Settled (α : Type) where
  | fulfilled (value : α)
  | rejected (reason : String)
deriving Repr, DecidableEq

/-- The behaviour of one tunnel plugin as observed by the `run` loop:
its type tag, its `isAvailable()` flag (a pure configuration read for all
three variants), the outcome of `start` (either the thrown error message or
the `(endpoint, pid)` of its result record), and its `getConnectCommand`
value. -/
structure PluginModel where
  type : String
  available : Bool
  startResult : Except String (Option String × Option Nat)
  connectCommand : Option String
deriving Repr, DecidableEq

/-- The mapped async function of the tunnel startup loop (`run`, lines
618–646): the `try` block checks `isAvailable`, runs `start` and builds the
success record, returning `null` for an unavailable plugin; the `catch`
converts a thrown error into a failure record.  Because every branch returns
(the catch swallows the error), the mapped promise always fulfills. -/
def startOne (p : PluginModel) : Settled (Option TunnelOutcomeJs) :=
  if p.available then
    match p.startResult with
    | Except.ok (ep, pid) =>
        Settled.fulfilled (some
          { tunnelType := p.type, success := true,
            endpoint := ep, connectCommand := p.connectCommand, pid := pid })
    | Except.error msg =>
        Settled.fulfilled (some
          { tunnelType := p.type, success := false,
            error := some msg })
  else Settled.fulfilled none

/-- `results.tunnels = await Promise.allSettled(tunnels.map(...))`:
`allSettled` settles every mapped promise and preserves input order, so the
aggregate is the per-plugin settlement in input order.  Each mapped function
touches only its own plugin, so entry `i` is a function of plugin `i`
alone (failure isolation). -/
def runTunnels (ps : List PluginModel) : List (Settled (Option TunnelOutcomeJs)) :=
  ps.map startOne

/- ## C3: failure isolation and aggregate shape -/

/-- C3, counterexample to the claim as stated.  The claim says a plugin whose
`isAvailable()` is false is absent from the result list entirely and that the
list has one entry per attempted plugin.  On the code, the unavailable
plugin still contributes an entry — a fulfilled promise whose value is
`null` — so with one available and one unavailable plugin the list has two
entries, not one. -/
theorem C3_runTunnels_counterexample :
    (runTunnels
        [{ type := "Pinggy", available := true,
           startResult := Except.ok (none, some 41), connectCommand := none },
         { type := "Cloudflare", available := false,
           startResult := Except.ok (none, none), connectCommand := none }]).length = 2
    ∧ ([{ type := "Pinggy", available := true,
           startResult := Except.ok (none, some 41), connectCommand := none },
         { type := "Cloudflare", available := false,
           startResult := Except.ok (none, none), connectCommand := none }].filter
        (fun p : PluginModel => p.available)).length = 1
    ∧ (runTunnels
        [{ type := "Pinggy", available := true,
           startResult := Except.ok (none, some 41), connectCommand := none },
         { type := "Cloudflare", available := false,
           startResult := Except.ok (none, none), connectCommand := none }])[1]?
      = some (Settled.fulfilled none) := by
  refine ⟨rfl, rfl, by decide⟩

/-- C3, amended: the aggregate result is an ordered list of settled
`{status, value|reason}` pairs with one entry per plugin (available or not),
preserving input order; entry `i` depends only on plugin `i`, so a thrown
`start` error becomes a failure record for that plugin alone and never
disturbs a sibling's entry; an unavailable plugin is attempted neither as a
success nor a failure — it contributes a fulfilled `null` entry (which the
reporting stage skips) rather than being absent; and no entry is ever
rejected. -/
theorem C3_runTunnels_amended (ps : List PluginModel) :
    (runTunnels ps).length = ps.length
    ∧ (∀ i : Nat, (runTunnels ps)[i]? = (ps[i]?).map startOne)
    ∧ (∀ p : PluginModel, p.available = false → startOne p = Settled.fulfilled none)
    ∧ (∀ (p : PluginModel) (msg : String), p.available = true →
        p.startResult = Except.error msg →
        startOne p = Settled.fulfilled (some
          { tunnelType := p.type,
            success := false, error := some msg }))
    ∧ (∀ e ∈ runTunnels ps, ∃ v, e = Settled.fulfilled v) := by
  refine ⟨by simp [runTunnels], ?_, ?_, ?_, ?_⟩
  · intro i
    simp [runTunnels]
  · intro p h
    rw [startOne, if_neg (by simp [h])]
  · intro p msg h1 h2
    rw [startOne, if_pos h1, h2]
  · intro e he
    rcases List.mem_map.mp he with ⟨p, _, hpe⟩
    subst hpe
    rw [startOne]
    by_cases h : p.available
    · rw [if_pos h]
      rcases p.startResult with msg | ⟨ep, pid⟩
      · exact ⟨_, rfl⟩
      · exact ⟨_, rfl⟩
    · rw [if_neg h]
      exact ⟨none, rfl⟩

/-- C3 witness: concrete evaluation of the amended theorem on a three-plugin
list whose middle plugin throws. -/
theorem C3_runTunnels_witness :
    (runTunnels
        [{ type := "Pinggy", available := true,
           startResult := Except.ok (some "tcp://h:1", some 41), connectCommand := some "c" },
         { type := "SSH-J", available := true,
           startResult := Except.error "boom", connectCommand := none },
         { type := "Cloudflare", available := false,
           startResult := Except.ok (none, none), connectCommand := none }]).length = 3
    ∧ startOne
          { type := "SSH-J", available := true,
            startResult := Except.error "boom", connectCommand := none } =
        Settled.fulfilled (some
          { tunnelType := "SSH-J", success := false,
            error := some "boom" }) :=
  ⟨(C3_runTunnels_amended
      [{ type := "Pinggy", available := true,
         startResult := Except.ok (some "tcp://h:1", some 41), connectCommand := some "c" },
       { type := "SSH-J", available := true,
         startResult := Except.error "boom", connectCommand := none },
       { type := "Cloudflare", available := false,
         startResult := Except.ok (none, none), connectCommand := none }]).1,
   (C3_runTunnels_amended []).2.2.2.1
      { type := "SSH-J", available := true,
        startResult := Except.error "boom", connectCommand := none }
      "boom" rfl rfl⟩

/- ## The run control flow (`src/unnamed/part_001` lines 549–669) -/

/-- The `SshBringupResult` fields recorded in `results.ssh` on success. -/
structure SshOkInfo where
  mode : SshMode
  port : Nat
deriving Repr, DecidableEq

/-- Observable events of one `run` invocation, in program order. -/
inductive RunEvent where
  | sshSetupStart
  | sshSetupOk (info : SshOkInfo)
  | sshSetupFailed (msg : String)
  | tunnelStart (ty : String)
  | tunnelsSettled
  | summaryPrinted
  | exitProcess (code : Nat)
deriving Repr, DecidableEq

/-- Event-trace model of `run` (lines 582–661): phase 1 awaits
`setupSSH.setup()` inside try/catch — on a throw it prints the summary and
calls `process.exit(1)` before the tunnel section is ever reached; on success
it records the result and only then builds the tunnel instances and maps
over them, invoking `start` only for available plugins.  The mapped starts
are launched together after the awaited SSH phase; their mutual interleaving
is schedule-dependent and the trace lists them in input order, which is all
the phase-boundary claims need.  `sshResult` abstracts the outcome of
`setupSSH.setup()`. -/
def runTrace (sshResult : Except String SshOkInfo) (ps : List PluginModel) :
    List RunEvent :=
  RunEvent.sshSetupStart ::
    match sshResult with
    | Except.error msg =>
        [RunEvent.sshSetupFailed msg, RunEvent.summaryPrinted, RunEvent.exitProcess 1]
    | Except.ok info =>
        RunEvent.sshSetupOk info ::
          ((ps.filter fun p => p.available).map (fun p => RunEvent.tunnelStart p.type)
            ++ [RunEvent.tunnelsSettled, RunEvent.summaryPrinted])

/-- Recogniser for tunnel-start events. -/
def isTunnelStart : RunEvent → Bool
  | RunEvent.tunnelStart _ => true
  | _ => false

/- ## C4: SSH bring-up strictly precedes all tunnel starts -/

/-- C4: if SSH bring-up fails, the run performs no tunnel start at all and
terminates with exit code 1; in every successful run, the completed SSH
bring-up event precedes every tunnel start in the trace. -/
theorem C4_sshBeforeTunnels (sshResult : Except String SshOkInfo)
    (ps : List PluginModel) :
    (∀ msg, sshResult = Except.error msg →
      runTrace sshResult ps =
          [RunEvent.sshSetupStart, RunEvent.sshSetupFailed msg,
           RunEvent.summaryPrinted, RunEvent.exitProcess 1]
      ∧ (∀ e ∈ runTrace sshResult ps, isTunnelStart e = false)
      ∧ RunEvent.exitProcess 1 ∈ runTrace sshResult ps)
    ∧ (∀ info, sshResult = Except.ok info →
      ∀ (j : Nat) (ty : String),
        (runTrace sshResult ps)[j]? = some (RunEvent.tunnelStart ty) →
        ∃ i : Nat, i < j ∧
          (runTrace sshResult ps)[i]? = some (RunEvent.sshSetupOk info)) := by
  constructor
  · intro msg h
    subst h
    refine ⟨rfl, ?_, ?_⟩
    · intro e he
      simp [runTrace] at he
      rcases he with h1 | h1 | h1 | h1 <;> subst h1 <;> rfl
    · simp [runTrace]
  · intro info h
    subst h
    intro j ty hj
    match j with
    | 0 => simp [runTrace] at hj
    | 1 => simp [runTrace] at hj
    | Nat.succ (Nat.succ k) =>
      refine ⟨1, by omega, ?_⟩
      simp [runTrace]

/-- C4 witness: in a concrete failing run there is no tunnel start and the
process exits 1; in a concrete successful run the SSH-ready event precedes
the (index-2) tunnel start. -/
theorem C4_sshBeforeTunnels_witness :
    (runTrace (Except.error "Port 2222 is not listening after timeout")
        [{ type := "Pinggy", available := true,
           startResult := Except.ok (none, none), connectCommand := none }] =
      [RunEvent.sshSetupStart,
       RunEvent.sshSetupFailed "Port 2222 is not listening after timeout",
       RunEvent.summaryPrinted, RunEvent.exitProcess 1])
    ∧ (∃ i : Nat, i < 2 ∧
        (runTrace (Except.ok { mode := SshMode.user, port := 2222 })
          [{ type := "Pinggy", available := true,
             startResult := Except.ok (none, none), connectCommand := none }])[i]?
          = some (RunEvent.sshSetupOk { mode := SshMode.user, port := 2222 })) :=
  ⟨((C4_sshBeforeTunnels (Except.error "Port 2222 is not listening after timeout")
      [{ type := "Pinggy", available := true,
         startResult := Except.ok (none, none), connectCommand := none }]).1
      "Port 2222 is not listening after timeout" rfl).1,
   (C4_sshBeforeTunnels (Except.ok { mode := SshMode.user, port := 2222 })
      [{ type := "Pinggy", available := true,
         startResult := Except.ok (none, none), connectCommand := none }]).2
      { mode := SshMode.user, port := 2222 } rfl 2 "Pinggy" (by decide)⟩

/- ## retryWithBackoff (`lib/utils.js` lines 430–458) -/

/-- Observable outcome of one `retryWithBackoff` run: the returned value or
thrown error (the error slot is `Option ε` because with `maxRetries = 0` the
loop never runs and `throw lastError` throws the undefined initial value),
the number of attempts performed, and the sequence of backoff delays slept
between attempts, in order. -/
structure RetryTrace (ε α : Type) where
  result : Except (Option ε) α
  attemptsMade : Nat
  delays : List Nat
deriving Repr, DecidableEq

/-- The retry loop of `retryWithBackoff`.  `f i` is the outcome of attempt
`i` (JavaScript `await fn()` on iteration `i`).  `attempt` is the loop
counter; `fuel` counts remaining iterations and is initialised to
`maxRetries`, so the guard `attempt < maxRetries` and fuel exhaustion
coincide and the recursion is structural.  Each failed non-final attempt
computes `delay = min(initialDelay * factor^attempt, maxDelay)` and sleeps
it (recorded in `delays`); the final attempt's failure breaks out and the
loop rethrows the last error. -/
def retryAux (f : Nat → Except ε α) (maxRetries initialDelay maxDelay factor : Nat) :
    Nat → Nat → Option ε → RetryTrace ε α
  | 0, attempt, lastError =>
    { result := Except.error lastError, attemptsMade := attempt, delays := [] }
  | fuel + 1, attempt, lastError =>
    if attempt < maxRetries then
      match f attempt with
      | Except.ok v =>
        { result := Except.ok v, attemptsMade := attempt + 1, delays := [] }
      | Except.error e =>
        if attempt = maxRetries - 1 then
          { result := Except.error (some e), attemptsMade := attempt + 1,
            delays := [] }
        else
          let d := min (initialDelay * factor ^ attempt) maxDelay
          let r := retryAux f maxRetries initialDelay maxDelay factor fuel
            (attempt + 1) (some e)
          { result := r.result, attemptsMade := r.attemptsMade,
            delays := d :: r.delays }
    else
      { result := Except.error lastError, attemptsMade := attempt, delays := [] }

/-- `retryWithBackoff(fn, options)` (`lib/utils.js` lines 430–458), with the
option values `maxRetries`, `initialDelay`, `maxDelay`, `factor` as
parameters (defaults 3, 1000, 10000, 2). -/
def retryWithBackoff (f : Nat → Except ε α)
    (maxRetries initialDelay maxDelay factor : Nat) : RetryTrace ε α :=
  retryAux f maxRetries initialDelay maxDelay factor maxRetries 0 none

/- ## Retry lemmas (support for C7/C8) -/

lemma retryAux_delays_getElem {f : Nat → Except ε α}
    {maxRetries initialDelay maxDelay factor : Nat} :
    ∀ (fuel attempt : Nat) (lastError : Option ε) (j d : Nat),
      (retryAux f maxRetries initialDelay maxDelay factor fuel attempt
        lastError).delays[j]? = some d →
      d = min (initialDelay * factor ^ (attempt + j)) maxDelay := by
  intro fuel
  induction fuel with
  | zero =>
    intro attempt lastError j d h
    simp [retryAux] at h
  | succ n ih =>
    intro attempt lastError j d h
    rw [retryAux] at h
    by_cases hlt : attempt < maxRetries
    · rw [if_pos hlt] at h
      rcases hf : f attempt with e | v
      · rw [hf] at h
        simp only [] at h
        by_cases hfin : attempt = maxRetries - 1
        · rw [if_pos hfin] at h
          simp at h
        · rw [if_neg hfin] at h
          simp only [] at h
          match j with
          | 0 =>
            simp only [List.getElem?_cons_zero, Option.some.injEq] at h
            rw [Nat.add_zero]
            exact h.symm
          | Nat.succ k =>
            simp only [List.getElem?_cons_succ] at h
            have hd := ih (attempt + 1) (some e) k d h
            rw [hd, show attempt + (k + 1) = attempt + 1 + k from by omega]
      · rw [hf] at h
        simp at h
    · rw [if_neg hlt] at h
      simp at h

lemma retryAux_success {f : Nat → Except ε α}
    {maxRetries initialDelay maxDelay factor : Nat} :
    ∀ (fuel attempt : Nat) (lastError : Option ε) (k : Nat) (v : α),
      attempt + fuel = maxRetries →
      attempt ≤ k → k < maxRetries →
      (∀ i, attempt ≤ i → i < k → ∃ e, f i = Except.error e) →
      f k = Except.ok v →
      (retryAux f maxRetries initialDelay maxDelay factor fuel attempt
          lastError).result = Except.ok v
      ∧ (retryAux f maxRetries initialDelay maxDelay factor fuel attempt
          lastError).attemptsMade = k + 1 := by
  intro fuel
  induction fuel with
  | zero =>
    intro attempt lastError k v hfuel hak hk _ _
    omega
  | succ n ih =>
    intro attempt lastError k v hfuel hak hk hbefore hfk
    have hlt : attempt < maxRetries := by omega
    rw [retryAux, if_pos hlt]
    by_cases hka : k = attempt
    · subst hka
      rw [hfk]
      exact ⟨rfl, rfl⟩
    · rcases hbefore attempt (Nat.le_refl attempt) (by omega) with ⟨e, he⟩
      rw [he]
      simp only []
      have hfin : attempt ≠ maxRetries - 1 := by omega
      rw [if_neg hfin]
      simp only []
      exact ih (attempt + 1) (some e) k v (by omega) (by omega) hk
        (fun i h1 h2 => hbefore i (by omega) h2) hfk

lemma retryAux_allFail {f : Nat → Except ε α}
    {maxRetries initialDelay maxDelay factor : Nat} {eLast : ε} :
    ∀ (fuel attempt : Nat) (lastError : Option ε),
      attempt + fuel = maxRetries →
      attempt < maxRetries →
      (∀ i, attempt ≤ i → i < maxRetries → ∃ e, f i = Except.error e) →
      f (maxRetries - 1) = Except.error eLast →
      (retryAux f maxRetries initialDelay maxDelay factor fuel attempt
          lastError).result = Except.error (some eLast)
      ∧ (retryAux f maxRetries initialDelay maxDelay factor fuel attempt
          lastError).attemptsMade = maxRetries := by
  intro fuel
  induction fuel with
  | zero =>
    intro attempt lastError hfuel hlt _ _
    omega
  | succ n ih =>
    intro attempt lastError hfuel hlt hall hlast
    rw [retryAux, if_pos hlt]
    by_cases hfin : attempt = maxRetries - 1
    · have hfa : f attempt = Except.error eLast := by rw [hfin]; exact hlast
      rw [hfa]
      simp only []
      rw [if_pos hfin]
      refine ⟨rfl, ?_⟩
      simp only []
      omega
    · rcases hall attempt (Nat.le_refl attempt) hlt with ⟨e, he⟩
      rw [he]
      simp only []
      rw [if_neg hfin]
      simp only []
      exact ih (attempt + 1) (some e) (by omega) (by omega)
        (fun i h1 h2 => hall i (by omega) h2) hlast

/- ## C7: backoff delay formula -/

/-- C7: for every attempt index `n ≥ 0` and parameters, the backoff delay
slept before retry `n+1` (the `n`-th element of the delay trace) equals
`min(initialDelay * factor^n, maxDelay)`; no delay ever exceeds `maxDelay`;
and for `(initialDelay=1000, factor=2, maxDelay=10000)` with every attempt
failing the concrete delay sequence is `1000, 2000, 4000, 8000, 10000,
10000`. -/
theorem C7_backoffDelays (f : Nat → Except ε α)
    (maxRetries initialDelay maxDelay factor : Nat) :
    (∀ j d : Nat,
      (retryWithBackoff f maxRetries initialDelay maxDelay factor).delays[j]? =
          some d →
      d = min (initialDelay * factor ^ j) maxDelay)
    ∧ (∀ d ∈ (retryWithBackoff f maxRetries initialDelay maxDelay factor).delays,
        d ≤ maxDelay)
    ∧ (retryWithBackoff (fun _ => (Except.error "boom" : Except String Nat))
        7 1000 10000 2).delays = [1000, 2000, 4000, 8000, 10000, 10000] := by
  refine ⟨?_, ?_, by decide⟩
  · intro j d h
    rw [retryWithBackoff] at h
    have := retryAux_delays_getElem maxRetries 0 none j d h
    simpa using this
  · intro d hd
    rw [retryWithBackoff] at hd
    rcases List.mem_iff_getElem?.mp hd with ⟨j, hj⟩
    rw [retryAux_delays_getElem maxRetries 0 none j d hj]
    exact min_le_right _ _

/-- C7 witness: the fifth delay (index 4) of the concrete all-failing run is
10000 and satisfies the formula. -/
theorem C7_backoffDelays_witness :
    (retryWithBackoff (fun _ => (Except.error "boom" : Except String Nat))
        7 1000 10000 2).delays[4]? = some 10000
    ∧ (10000 : Nat) = min (1000 * 2 ^ 4) 10000 :=
  ⟨by decide,
   (C7_backoffDelays (fun _ => (Except.error "boom" : Except String Nat))
      7 1000 10000 2).1 4 10000 (by decide)⟩

/- ## C8: retry result propagation -/

/-- C8: when every one of the `maxRetries` bounded attempts fails, the error
propagated is exactly the final attempt's error (not a wrapper), after
exactly `maxRetries` attempts; when some attempt succeeds first, its result
is returned after exactly that many attempts, with no further attempts. -/
theorem C8_retryPropagation (f : Nat → Except ε α)
    (maxRetries initialDelay maxDelay factor : Nat) :
    (∀ eLast, 0 < maxRetries →
      (∀ i, i < maxRetries → ∃ e, f i = Except.error e) →
      f (maxRetries - 1) = Except.error eLast →
      (retryWithBackoff f maxRetries initialDelay maxDelay factor).result =
          Except.error (some eLast)
      ∧ (retryWithBackoff f maxRetries initialDelay maxDelay
          factor).attemptsMade = maxRetries)
    ∧ (∀ k v, k < maxRetries →
      (∀ i, i < k → ∃ e, f i = Except.error e) →
      f k = Except.ok v →
      (retryWithBackoff f maxRetries initialDelay maxDelay factor).result =
          Except.ok v
      ∧ (retryWithBackoff f maxRetries initialDelay maxDelay
          factor).attemptsMade = k + 1) := by
  constructor
  · intro eLast hpos hall hlast
    rw [retryWithBackoff]
    exact retryAux_allFail maxRetries 0 none (by omega) hpos
      (fun i _ h2 => hall i h2) hlast
  · intro k v hk hbefore hfk
    rw [retryWithBackoff]
    exact retryAux_success maxRetries 0 none k v (by omega) (Nat.zero_le k) hk
      (fun i _ h2 => hbefore i h2) hfk

/-- C8 witness: an always-failing operation with 3 retries propagates the
final attempt's error after 3 attempts; an operation succeeding on attempt
index 2 (of 5) returns its value after 3 attempts. -/
theorem C8_retryPropagation_witness :
    ((retryWithBackoff (fun _ => (Except.error "boom" : Except String Nat))
        3 1000 10000 2).result = Except.error (some "boom")
      ∧ (retryWithBackoff (fun _ => (Except.error "boom" : Except String Nat))
          3 1000 10000 2).attemptsMade = 3)
    ∧ ((retryWithBackoff
          (fun i => if i = 2 then Except.ok 7 else (Except.error "x" : Except String Nat))
          5 1000 10000 2).result = Except.ok 7
      ∧ (retryWithBackoff
          (fun i => if i = 2 then Except.ok 7 else (Except.error "x" : Except String Nat))
          5 1000 10000 2).attemptsMade = 2 + 1) :=
  ⟨(C8_retryPropagation (fun _ => (Except.error "boom" : Except String Nat))
      3 1000 10000 2).1 "boom" (by decide)
      (fun _ _ => ⟨"boom", rfl⟩) rfl,
   (C8_retryPropagation
      (fun i => if i = 2 then Except.ok 7 else (Except.error "x" : Except String Nat))
      5 1000 10000 2).2 2 7 (by decide)
      (fun i hi => ⟨"x", by rw [if_neg (show ¬ i = 2 from by omega)]⟩) rfl⟩
